import Mathlib

/-!
Shallow embedding of the news-summary cache server (`main.go`).

The program has two parts relevant to the claims:

* `fetchAndSummarizeNews` (main.go lines 48-122): fetches a fixed list of
  RSS feeds concurrently, builds a Markdown section per successful feed
  (at most `maxItemsPerFeed` item links each), collects per-feed failure
  notes, combines the sections in the order of the `rssFeeds` list, and
  appends an error block listing the failure notes.

* `getLatestNewsSummary` (main.go lines 126-175): a TTL cache guarded by a
  read-write mutex with a double-checked-locking refresh.  The global
  mutable state (`cachedSummaryMD`, `cachedSummaryHTML`,
  `lastSummaryUpdateTime`, `summaryFetchError`) is modelled as a
  `CacheState` record; time is modelled as a `Nat` of nanoseconds
  (Go's `time.Duration` unit), and the markdown-to-HTML renderer — an
  external library call — as an abstract function `render : String → String`.

Concurrency is modelled in two ways, both standard for a shallow embedding:

* a single sequential call is `getLatestNewsSummary`, executing the
  first staleness check, the write-lock critical section with its
  double-check, and the final read atomically;
* for claims about racing callers, the serialized sequence of write-lock
  critical sections is `runCriticals`: the mutex guarantees the critical
  sections execute one after another, each seeing the state left by the
  previous one, with its own check time and stamp time.

For the feed fetcher, each goroutine's single mutex-protected completion
action (store a result keyed by feed name, or append a failure note) is
modelled by folding over an arbitrary completion order (a permutation of
the feed indices), which captures every possible interleaving.
-/

namespace TimeDemo

/-! ## Constants (main.go lines 18-23) -/

/-- Number of items to display per feed. -/
def maxItemsPerFeed : Nat := 3

/-- How long to cache the summary: 1 hour, in nanoseconds (Go `time.Duration`). -/
def cacheTTL : Nat := 3600000000000

/-! ## Feed data model (gofeed results, as used by main.go) -/

/-- One item of a parsed feed: the fields the program reads. -/
structure FeedItem where
  title : String
  link : String
deriving DecidableEq, Repr

/-- A parsed feed: the fields the program reads. -/
structure Feed where
  title : String
  items : List FeedItem
deriving DecidableEq, Repr

/-- An entry of the `rssFeeds` list (main.go lines 35-44). -/
structure FeedSource where
  name : String
  url : String
deriving DecidableEq, Repr

/-- The `rssFeeds` list (main.go lines 39-43). -/
def rssFeeds : List FeedSource :=
  [⟨"BBC News", "http://feeds.bbci.co.uk/news/world/rss.xml"⟩,
   ⟨"TechCrunch", "http://feeds.feedburner.com/TechCrunch/"⟩,
   ⟨"The Guardian", "https://www.theguardian.com/world/rss"⟩,
   ⟨"NPR News", "https://feeds.npr.org/1001/rss.xml"⟩,
   ⟨"Al Jazeera", "http://www.aljazeera.com/xml/rss/all.xml"⟩]

/-- The outcome of `fp.ParseURL` for one source, paired with the source:
either an error (message) or a parsed feed. -/
abbrev FeedOutcome := FeedSource × Except String Feed

/-! ## fetchAndSummarizeNews (main.go lines 48-122) -/

/-- One item line of a feed section (main.go line 84). -/
def itemLine (item : FeedItem) : String :=
  "*   [" ++ item.title ++ "](" ++ item.link ++ ")\n"

/-- The item-collecting loop of a feed section (main.go lines 78-88):
appends one line per item, stopping once `count` reaches
`maxItemsPerFeed`. -/
def sectionItems : List FeedItem → Nat → List String
  | [], _ => []
  | item :: rest, count =>
    if maxItemsPerFeed ≤ count then []
    else itemLine item :: sectionItems rest (count + 1)

/-- The Markdown section one goroutine builds for a successfully parsed
feed (main.go lines 75-89): title heading, item lines, trailing blank. -/
def buildFeedSection (feed : Feed) : String :=
  "## " ++ feed.title ++ "\n\n" ++ String.join (sectionItems feed.items 0) ++ "\n"

/-- The failure note appended to `fetchErrors` when a feed fails
(main.go line 70). -/
def failureNote (name err : String) : String :=
  "Failed to fetch " ++ name ++ ": " ++ err

/-- One goroutine's completion action (main.go lines 63-94), acting on the
shared `(results, fetchErrors)` accumulator under `resultsMutex`: index
`i` names the feed whose goroutine completes.  A success conses its
`(name, section)` entry onto the results association list (Go map
semantics: a later insert for the same key wins, which first-match lookup
on a cons-front list reproduces); a failure appends a note to
`fetchErrors`. -/
def gatherStep (outcomes : List FeedOutcome)
    (acc : List (String × String) × List String) (i : Nat) :
    List (String × String) × List String :=
  match outcomes[i]? with
  | none => acc
  | some (src, Except.error e) => (acc.1, acc.2 ++ [failureNote src.name e])
  | some (src, Except.ok feed) => ((src.name, buildFeedSection feed) :: acc.1, acc.2)

/-- The concurrent fetch phase (main.go lines 61-97): the goroutines'
completion actions applied in completion order `order`. -/
def gatherResults (outcomes : List FeedOutcome) (order : List Nat) :
    List (String × String) × List String :=
  order.foldl (gatherStep outcomes) ([], [])

/-- The combining loop (main.go lines 101-106): iterate the original feed
list in order and append the stored section of each feed that has one. -/
def combineResults (outcomes : List FeedOutcome)
    (results : List (String × String)) : String :=
  String.join (outcomes.filterMap (fun so => results.lookup so.1.name))

/-- The error-reporting block (main.go lines 109-114): a header and one
bullet per collected failure note, or empty when there are none. -/
def errorBlock (fetchErrors : List String) : String :=
  if 0 < fetchErrors.length then
    "\n---\n**Errors during fetch:**\n" ++
      String.join (fetchErrors.map (fun m => "*   " ++ m ++ "\n"))
  else ""

/-- `fetchAndSummarizeNews` (main.go lines 48-122), parameterized by the
per-feed parse outcomes and the goroutine completion order: build the
combined summary (sections in feed order, then the error block) and
return an operation-level error exactly when the built string is empty
and there were fetch errors (main.go lines 116-119). -/
def fetchAndSummarizeNews (outcomes : List FeedOutcome) (order : List Nat) :
    Except String String :=
  let gr := gatherResults outcomes order
  let finalSummary := combineResults outcomes gr.1 ++ errorBlock gr.2
  if finalSummary.length = 0 ∧ 0 < gr.2.length then
    Except.error "failed to fetch any RSS feeds"
  else
    Except.ok finalSummary

/-! ## getLatestNewsSummary (main.go lines 126-175) -/

/-- The global cache state (main.go lines 26-32).  `lastSummaryUpdateTime`
is a `Nat` timestamp in nanoseconds; its initial value `0` models Go's
zero `time.Time` (the first refresh is forced by the empty-cache
disjunct either way).  `summaryFetchError` is `none` for a nil error. -/
structure CacheState where
  cachedSummaryMD : String
  cachedSummaryHTML : String
  lastSummaryUpdateTime : Nat
  summaryFetchError : Option String
deriving DecidableEq, Repr

/-- The state at process start: empty cache, zero time, nil error. -/
def initialCacheState : CacheState :=
  { cachedSummaryMD := "", cachedSummaryHTML := "",
    lastSummaryUpdateTime := 0, summaryFetchError := none }

/-- The staleness test (main.go lines 129 and 135):
`time.Since(lastSummaryUpdateTime) >= cacheTTL || cachedSummaryMD == ""`,
with `time.Since t = now - t` (truncated subtraction: a negative Go
duration compares below `cacheTTL` exactly as the `Nat` difference 0
does). -/
def needsUpdate (s : CacheState) (now : Nat) : Bool :=
  decide (cacheTTL ≤ now - s.lastSummaryUpdateTime) ||
    decide (s.cachedSummaryMD = "")

/-- The write-lock critical section (main.go lines 133-162): re-check the
staleness condition at time `tCheck` against the current state; if still
stale, apply the fetch `outcome` — on error store it and keep the stale
cache, on success store the new Markdown, render it to HTML, and clear
the error — and stamp `lastSummaryUpdateTime := tStamp` (the
`time.Now()` after the fetch, taken on success and failure alike).
Returns the new state and whether a fetch was performed. -/
def lockedRefresh (render : String → String) (s : CacheState)
    (tCheck tStamp : Nat) (outcome : Except String String) :
    CacheState × Bool :=
  if needsUpdate s tCheck then
    match outcome with
    | Except.error e =>
      ({ s with summaryFetchError := some e, lastSummaryUpdateTime := tStamp }, true)
    | Except.ok summaryMD =>
      ({ cachedSummaryMD := summaryMD, cachedSummaryHTML := render summaryMD,
         summaryFetchError := none, lastSummaryUpdateTime := tStamp }, true)
  else (s, false)

/-- The final read under the read lock (main.go lines 166-174): return the
cached Markdown and HTML, with the stored error when there is one. -/
def readOut (s : CacheState) : String × String × Option String :=
  match s.summaryFetchError with
  | some e => (s.cachedSummaryMD, s.cachedSummaryHTML, some e)
  | none => (s.cachedSummaryMD, s.cachedSummaryHTML, none)

/-- The observable outcome of one call: the cache state it leaves behind,
the returned triple, and whether this call performed a fetch. -/
structure CallResult where
  state : CacheState
  md : String
  html : String
  err : Option String
  fetched : Bool
deriving DecidableEq, Repr

/-- One sequential call to `getLatestNewsSummary` (main.go lines 126-175):
first staleness check at `now` under the read lock, then — if stale —
the write-lock critical section with its double-check at `now` and stamp
time `nowStamp` (the `time.Now()` after the fetch returns), then the
final read. -/
def getLatestNewsSummary (render : String → String) (s : CacheState)
    (now nowStamp : Nat) (outcome : Except String String) : CallResult :=
  let r := if needsUpdate s now then lockedRefresh render s now nowStamp outcome
           else (s, false)
  { state := r.1, md := (readOut r.1).1, html := (readOut r.1).2.1,
    err := (readOut r.1).2.2, fetched := r.2 }

/-- A sequential history of calls: each entry is
(check time, stamp time, fetch outcome had a fetch run). -/
def runCalls (render : String → String) :
    CacheState → List (Nat × Nat × Except String String) → CacheState
  | s, [] => s
  | s, c :: rest =>
    runCalls render (getLatestNewsSummary render s c.1 c.2.1 c.2.2).state rest

/-- The serialized write-lock critical sections of racing callers that all
observed staleness: caller after caller enters the critical section,
re-checks at its own check time against the state left by its
predecessors, and fetches or skips.  Returns the final state and the
number of fetches performed. -/
def runCriticals (render : String → String) :
    CacheState → List (Nat × Nat × Except String String) → CacheState × Nat
  | s, [] => (s, 0)
  | s, c :: rest =>
    let r := lockedRefresh render s c.1 c.2.1 c.2.2
    let q := runCriticals render r.1 rest
    (q.1, (if r.2 then 1 else 0) + q.2)

/-! ## Statement-side definitions for the implicit claims -/

/-- The section a successful outcome contributes, `none` for a failure. -/
def sectionOf (so : FeedOutcome) : Option String :=
  match so.2 with
  | Except.ok feed => some (buildFeedSection feed)
  | Except.error _ => none

/-- The failure note a failing outcome contributes, `none` for a success. -/
def noteOf (so : FeedOutcome) : Option String :=
  match so.2 with
  | Except.ok _ => none
  | Except.error e => some (failureNote so.1.name e)

/-- The successful feeds' sections concatenated in the order the feeds
appear in the source list. -/
def sectionsInOrder (outcomes : List FeedOutcome) : String :=
  String.join (outcomes.filterMap sectionOf)

/-- All failure notes, in source-list order. -/
def failureNotes (outcomes : List FeedOutcome) : List String :=
  outcomes.filterMap noteOf

/-- The results-map entry contributed by the goroutine of index `i`,
`none` when that feed failed or the index is out of range. -/
def okEntry (outcomes : List FeedOutcome) (i : Nat) : Option (String × String) :=
  match outcomes[i]? with
  | some (src, Except.ok feed) => some (src.name, buildFeedSection feed)
  | _ => none

/-- The failure note contributed by the goroutine of index `i`, `none`
when that feed succeeded or the index is out of range. -/
def errNote (outcomes : List FeedOutcome) (i : Nat) : Option String :=
  match outcomes[i]? with
  | some (src, Except.error e) => some (failureNote src.name e)
  | _ => none

/-- Snapshot consistency (spec, data-model invariants): the rendered and
the raw content either both reflect the same successful fetch (the HTML
is the rendering of the non-empty Markdown) or are both in their initial
empty state. -/
def Consistent (render : String → String) (s : CacheState) : Prop :=
  (s.cachedSummaryMD = "" ∧ s.cachedSummaryHTML = "") ∨
  (s.cachedSummaryMD ≠ "" ∧ s.cachedSummaryHTML = render s.cachedSummaryMD)

/-! ## Concrete fixtures used by witnesses -/

/-- A cache state holding content from an earlier successful fetch. -/
def primedState : CacheState :=
  { cachedSummaryMD := "## BBC News\n\n", cachedSummaryHTML := "<h2>BBC News</h2>",
    lastSummaryUpdateTime := 0, summaryFetchError := none }

/-- Two feed outcomes: the first source succeeds, the second fails. -/
def exOutcomes : List FeedOutcome :=
  [(⟨"BBC News", "http://feeds.bbci.co.uk/news/world/rss.xml"⟩,
    Except.ok ⟨"BBC News", [⟨"Headline", "http://example.org/1"⟩]⟩),
   (⟨"TechCrunch", "http://feeds.feedburner.com/TechCrunch/"⟩,
    Except.error "timeout")]

/-! ## Helper lemmas about the cache -/

theorem lockedRefresh_skip (render : String → String) (s : CacheState)
    (tc ts : Nat) (o : Except String String) (h : needsUpdate s tc = false) :
    lockedRefresh render s tc ts o = (s, false) := by
  simp [lockedRefresh, h]

theorem needsUpdate_false (s : CacheState) (now : Nat)
    (hMD : s.cachedSummaryMD ≠ "") (h : now - s.lastSummaryUpdateTime < cacheTTL) :
    needsUpdate s now = false := by
  simp only [needsUpdate, Bool.or_eq_false_iff, decide_eq_false_iff_not]
  exact ⟨by omega, hMD⟩

theorem needsUpdate_of_empty (s : CacheState) (now : Nat)
    (hMD : s.cachedSummaryMD = "") : needsUpdate s now = true := by
  simp [needsUpdate, hMD]

theorem needsUpdate_of_ttl (s : CacheState) (now : Nat)
    (h : cacheTTL ≤ now - s.lastSummaryUpdateTime) : needsUpdate s now = true := by
  simp [needsUpdate, h]

theorem getLatest_ok (render : String → String) (s : CacheState)
    (now ns : Nat) (c : String) (h : needsUpdate s now = true) :
    getLatestNewsSummary render s now ns (Except.ok c) =
      { state := { cachedSummaryMD := c, cachedSummaryHTML := render c,
                   lastSummaryUpdateTime := ns, summaryFetchError := none },
        md := c, html := render c, err := none, fetched := true } := by
  simp [getLatestNewsSummary, lockedRefresh, h, readOut]

theorem getLatest_err (render : String → String) (s : CacheState)
    (now ns : Nat) (e : String) (h : needsUpdate s now = true) :
    getLatestNewsSummary render s now ns (Except.error e) =
      { state := { s with summaryFetchError := some e, lastSummaryUpdateTime := ns },
        md := s.cachedSummaryMD, html := s.cachedSummaryHTML,
        err := some e, fetched := true } := by
  simp [getLatestNewsSummary, lockedRefresh, h, readOut]

theorem getLatest_fresh (render : String → String) (s : CacheState)
    (now ns : Nat) (o : Except String String) (h : needsUpdate s now = false) :
    getLatestNewsSummary render s now ns o =
      { state := s, md := s.cachedSummaryMD, html := s.cachedSummaryHTML,
        err := s.summaryFetchError, fetched := false } := by
  cases he : s.summaryFetchError <;>
    simp [getLatestNewsSummary, h, readOut, he]

theorem runCriticals_fresh (render : String → String) :
    ∀ (rest : List (Nat × Nat × Except String String)) (s : CacheState),
    s.cachedSummaryMD ≠ "" →
    (∀ x ∈ rest, x.1 < s.lastSummaryUpdateTime + cacheTTL) →
    runCriticals render s rest = (s, 0) := by
  intro rest
  induction rest with
  | nil => intro s _ _; rfl
  | cons c rest ih =>
    intro s hMD hwin
    have hc : c.1 < s.lastSummaryUpdateTime + cacheTTL := hwin c (by simp)
    have hT : 0 < cacheTTL := by decide
    have hnu : needsUpdate s c.1 = false :=
      needsUpdate_false s c.1 hMD (by omega)
    simp only [runCriticals, lockedRefresh_skip render s c.1 c.2.1 c.2.2 hnu]
    rw [ih s hMD (fun x hx => hwin x (by simp [hx]))]
    simp

theorem runCalls_allFail (render : String → String) :
    ∀ (tr : List (Nat × Nat × Except String String)) (s : CacheState),
    s.cachedSummaryMD = "" → s.cachedSummaryHTML = "" →
    (∀ x ∈ tr, ∃ e, x.2.2 = Except.error e) →
    (runCalls render s tr).cachedSummaryMD = "" ∧
    (runCalls render s tr).cachedSummaryHTML = "" := by
  intro tr
  induction tr with
  | nil => intro s h1 h2 _; exact ⟨h1, h2⟩
  | cons c tr ih =>
    intro s h1 h2 hall
    obtain ⟨e, he⟩ := hall c (by simp)
    have hnu : needsUpdate s c.1 = true := needsUpdate_of_empty s c.1 h1
    have hstep : (getLatestNewsSummary render s c.1 c.2.1 c.2.2).state =
        { s with summaryFetchError := some e, lastSummaryUpdateTime := c.2.1 } := by
      rw [he, getLatest_err render s c.1 c.2.1 e hnu]
    simp only [runCalls, hstep]
    exact ih _ h1 h2 (fun x hx => hall x (by simp [hx]))

/-! ## Claim C1 -/

/-- Claim C1: single-flight.  When N callers race for the write lock after
the cached snapshot has become stale (the cache holds content from a
prior success and the first caller's re-check still sees it stale),
the serialized critical sections perform exactly one fetch: the winner
fetches (stamping time `ts1`), and every caller that enters the critical
section later in the same expiry window re-checks the staleness
condition, finds the snapshot no longer stale, skips its own fetch, and
leaves the state unchanged. -/
theorem single_flight_per_expiry_window (render : String → String)
    (s : CacheState) (tc1 ts1 : Nat) (o1 : Except String String)
    (rest : List (Nat × Nat × Except String String))
    (hMD : s.cachedSummaryMD ≠ "")
    (hstale : needsUpdate s tc1 = true)
    (hok : ∀ c, o1 = Except.ok c → c ≠ "")
    (hwindow : ∀ x ∈ rest, x.1 < ts1 + cacheTTL) :
    (runCriticals render s ((tc1, ts1, o1) :: rest)).2 = 1 ∧
    (runCriticals render s ((tc1, ts1, o1) :: rest)).1 =
      (lockedRefresh render s tc1 ts1 o1).1 := by
  cases o1 with
  | error e =>
    have hstep : lockedRefresh render s tc1 ts1 (Except.error e) =
        ({ s with summaryFetchError := some e, lastSummaryUpdateTime := ts1 }, true) := by
      simp [lockedRefresh, hstale]
    simp only [runCriticals, hstep]
    rw [runCriticals_fresh render rest _ (by simpa using hMD)
      (by intro x hx; simpa using hwindow x hx)]
    simp
  | ok c =>
    have hc : c ≠ "" := hok c rfl
    have hstep : lockedRefresh render s tc1 ts1 (Except.ok c) =
        ({ cachedSummaryMD := c, cachedSummaryHTML := render c,
           lastSummaryUpdateTime := ts1, summaryFetchError := none }, true) := by
      simp [lockedRefresh, hstale]
    simp only [runCriticals, hstep]
    rw [runCriticals_fresh render rest _ (by simpa using hc)
      (by intro x hx; simpa using hwindow x hx)]
    simp

/-- Witness for C1: three callers race after the snapshot went stale; the
winner fetches at check time `cacheTTL`, stamps `cacheTTL + 2`, and the
two losers (entering inside the same expiry window) skip, so exactly
one fetch happens. -/
theorem single_flight_per_expiry_window_witness :
    (primedState.cachedSummaryMD = "## BBC News\n\n" ∧
     needsUpdate primedState cacheTTL = true ∧
     cacheTTL + 5 < (cacheTTL + 2) + cacheTTL ∧
     cacheTTL + 9 < (cacheTTL + 2) + cacheTTL) ∧
    (runCriticals (fun s => s) primedState
      ((cacheTTL, cacheTTL + 2, Except.ok "## A\n") ::
        [(cacheTTL + 5, cacheTTL + 5, Except.error "late"),
         (cacheTTL + 9, cacheTTL + 9, Except.ok "## Z\n")])).2 = 1 ∧
    (runCriticals (fun s => s) primedState
      ((cacheTTL, cacheTTL + 2, Except.ok "## A\n") ::
        [(cacheTTL + 5, cacheTTL + 5, Except.error "late"),
         (cacheTTL + 9, cacheTTL + 9, Except.ok "## Z\n")])).1 =
      (lockedRefresh (fun s => s) primedState cacheTTL (cacheTTL + 2)
        (Except.ok "## A\n")).1 := by
  refine ⟨⟨by decide, by decide, by decide, by decide⟩, ?_⟩
  exact single_flight_per_expiry_window (fun s => s) primedState cacheTTL
    (cacheTTL + 2) (Except.ok "## A\n")
    [(cacheTTL + 5, cacheTTL + 5, Except.error "late"),
     (cacheTTL + 9, cacheTTL + 9, Except.ok "## Z\n")]
    (by decide) (by decide)
    (by intro c hc; cases hc; decide)
    (by intro x hx; fin_cases hx <;> decide)

/-! ## Claim C3 -/

/-- Counterexample to C3 as stated: the Fetcher fails at t0 = 0 (stamping
the completion time), yet a call at time 1 — well before t0 + TTL —
performs another fetch, because the staleness test's
`cachedSummaryMD == ""` disjunct stays true while no success has ever
populated the cache.  The claim's "even though the cached content
remains empty or stale" therefore fails in the empty case. -/
theorem empty_cache_retries_immediately :
    (getLatestNewsSummary (fun s => s) initialCacheState 0 0
      (Except.error "boom")).fetched = true ∧
    (getLatestNewsSummary (fun s => s) initialCacheState 0 0
      (Except.error "boom")).state.lastSummaryUpdateTime = 0 ∧
    (1 : Nat) < 0 + cacheTTL ∧
    (getLatestNewsSummary (fun s => s)
      (getLatestNewsSummary (fun s => s) initialCacheState 0 0
        (Except.error "boom")).state
      1 1 (Except.error "boom")).fetched = true := by
  decide

/-- Claim C3, amended: failure backs off for a cache holding content from
a prior success.  If the cache is non-empty and the Fetcher fails at t0,
the completion timestamp is stamped on failure, and no further Fetcher
call occurs at any time before t0 + TTL; with an empty cache the code
deliberately retries on every request. -/
theorem failure_backoff_with_prior_success (render : String → String)
    (s : CacheState) (e : String) (t0 t : Nat) (o : Except String String)
    (hMD : s.cachedSummaryMD ≠ "")
    (hstale : needsUpdate s t0 = true)
    (ht : t < t0 + cacheTTL) :
    (getLatestNewsSummary render s t0 t0 (Except.error e)).fetched = true ∧
    (getLatestNewsSummary render s t0 t0
      (Except.error e)).state.lastSummaryUpdateTime = t0 ∧
    (getLatestNewsSummary render
      (getLatestNewsSummary render s t0 t0 (Except.error e)).state
      t t o).fetched = false := by
  have h1 := getLatest_err render s t0 t0 e hstale
  have hstate : (getLatestNewsSummary render s t0 t0 (Except.error e)).state =
      { s with summaryFetchError := some e, lastSummaryUpdateTime := t0 } := by
    rw [h1]
  have hT : 0 < cacheTTL := by decide
  have hnu : needsUpdate
      { s with summaryFetchError := some e, lastSummaryUpdateTime := t0 } t = false := by
    apply needsUpdate_false
    · simpa using hMD
    · simp only []
      omega
  refine ⟨by rw [h1], by rw [hstate], ?_⟩
  rw [hstate, getLatest_fresh render _ t t o hnu]

/-- Witness for C3 (amended): a primed cache, a failing fetch once the TTL
has elapsed, then a call 7 ns later performs no fetch. -/
theorem failure_backoff_with_prior_success_witness :
    (primedState.cachedSummaryMD = "## BBC News\n\n" ∧
     needsUpdate primedState cacheTTL = true ∧
     cacheTTL + 7 < cacheTTL + cacheTTL) ∧
    (getLatestNewsSummary (fun s => s) primedState cacheTTL cacheTTL
      (Except.error "boom")).fetched = true ∧
    (getLatestNewsSummary (fun s => s) primedState cacheTTL cacheTTL
      (Except.error "boom")).state.lastSummaryUpdateTime = cacheTTL ∧
    (getLatestNewsSummary (fun s => s)
      (getLatestNewsSummary (fun s => s) primedState cacheTTL cacheTTL
        (Except.error "boom")).state
      (cacheTTL + 7) (cacheTTL + 7) (Except.ok "## B\n")).fetched = false := by
  refine ⟨⟨by decide, by decide, by decide⟩, ?_⟩
  exact failure_backoff_with_prior_success (fun s => s) primedState "boom"
    cacheTTL (cacheTTL + 7) (Except.ok "## B\n")
    (by decide) (by decide) (by decide)

/-! ## Claim C8 -/

/-- Claim C8: total propagation.  `getLatestNewsSummary` is a total
function of the cache state and the refresh outcome, and for every state
and every outcome it returns exactly the currently cached (possibly
empty or stale) Markdown and HTML together with the optional stored
error — it never fails to produce a response. -/
theorem total_propagation (render : String → String) (s : CacheState)
    (now ns : Nat) (o : Except String String) :
    (getLatestNewsSummary render s now ns o).md =
      (getLatestNewsSummary render s now ns o).state.cachedSummaryMD ∧
    (getLatestNewsSummary render s now ns o).html =
      (getLatestNewsSummary render s now ns o).state.cachedSummaryHTML ∧
    (getLatestNewsSummary render s now ns o).err =
      (getLatestNewsSummary render s now ns o).state.summaryFetchError := by
  by_cases h : needsUpdate s now = true
  · cases o with
    | ok c => rw [getLatest_ok render s now ns c h]; simp
    | error e => rw [getLatest_err render s now ns e h]; simp
  · rw [getLatest_fresh render s now ns o (by simpa using h)]; simp

/-! ## Claim C4 -/

/-- Claim C4: stale-serves-through-error.  After a successful refresh at
t0 (storing content `c`) and a failing refresh attempt at t0 + TTL, a
call at t0 + TTL + ε (with 0 < ε < TTL, i.e. before the next eligible
attempt) performs no fetch and returns the content produced at t0
paired with the error recorded at t0 + TTL. -/
theorem stale_serves_through_error (render : String → String) (s : CacheState)
    (c e : String) (t0 ε : Nat) (o : Except String String)
    (hc : c ≠ "") (hstale : needsUpdate s t0 = true)
    (hε : 0 < ε) (hεlt : ε < cacheTTL) :
    (getLatestNewsSummary render
      (getLatestNewsSummary render s t0 t0 (Except.ok c)).state
      (t0 + cacheTTL) (t0 + cacheTTL) (Except.error e)).fetched = true ∧
    (getLatestNewsSummary render
      (getLatestNewsSummary render
        (getLatestNewsSummary render s t0 t0 (Except.ok c)).state
        (t0 + cacheTTL) (t0 + cacheTTL) (Except.error e)).state
      (t0 + cacheTTL + ε) (t0 + cacheTTL + ε) o).md = c ∧
    (getLatestNewsSummary render
      (getLatestNewsSummary render
        (getLatestNewsSummary render s t0 t0 (Except.ok c)).state
        (t0 + cacheTTL) (t0 + cacheTTL) (Except.error e)).state
      (t0 + cacheTTL + ε) (t0 + cacheTTL + ε) o).html = render c ∧
    (getLatestNewsSummary render
      (getLatestNewsSummary render
        (getLatestNewsSummary render s t0 t0 (Except.ok c)).state
        (t0 + cacheTTL) (t0 + cacheTTL) (Except.error e)).state
      (t0 + cacheTTL + ε) (t0 + cacheTTL + ε) o).err = some e ∧
    (getLatestNewsSummary render
      (getLatestNewsSummary render
        (getLatestNewsSummary render s t0 t0 (Except.ok c)).state
        (t0 + cacheTTL) (t0 + cacheTTL) (Except.error e)).state
      (t0 + cacheTTL + ε) (t0 + cacheTTL + ε) o).fetched = false := by
  have h1 : (getLatestNewsSummary render s t0 t0 (Except.ok c)).state =
      { cachedSummaryMD := c, cachedSummaryHTML := render c,
        lastSummaryUpdateTime := t0, summaryFetchError := none } := by
    rw [getLatest_ok render s t0 t0 c hstale]
  rw [h1]
  have hnu2 : needsUpdate
      { cachedSummaryMD := c, cachedSummaryHTML := render c,
        lastSummaryUpdateTime := t0, summaryFetchError := none }
      (t0 + cacheTTL) = true := by
    apply needsUpdate_of_ttl
    simp only []
    omega
  have h2 : (getLatestNewsSummary render
      { cachedSummaryMD := c, cachedSummaryHTML := render c,
        lastSummaryUpdateTime := t0, summaryFetchError := none }
      (t0 + cacheTTL) (t0 + cacheTTL) (Except.error e)).state =
      { cachedSummaryMD := c, cachedSummaryHTML := render c,
        lastSummaryUpdateTime := t0 + cacheTTL, summaryFetchError := some e } := by
    rw [getLatest_err render _ _ _ e hnu2]
  have hnu3 : needsUpdate
      { cachedSummaryMD := c, cachedSummaryHTML := render c,
        lastSummaryUpdateTime := t0 + cacheTTL, summaryFetchError := some e }
      (t0 + cacheTTL + ε) = false := by
    apply needsUpdate_false
    · simpa using hc
    · simp only []
      omega
  refine ⟨by rw [getLatest_err render _ _ _ e hnu2], ?_⟩
  rw [h2, getLatest_fresh render _ _ _ o hnu3]
  exact ⟨rfl, rfl, rfl, rfl⟩

/-- Witness for C4: the scenario with t0 = 5, ε = 9, content "## A\n",
error "down". -/
theorem stale_serves_through_error_witness :
    (("## A\n" : String).length = 5 ∧ needsUpdate initialCacheState 5 = true ∧
     (0 : Nat) < 9 ∧ 9 < cacheTTL) ∧
    (getLatestNewsSummary (fun s => s)
      (getLatestNewsSummary (fun s => s) initialCacheState 5 5
        (Except.ok "## A\n")).state
      (5 + cacheTTL) (5 + cacheTTL) (Except.error "down")).fetched = true ∧
    (getLatestNewsSummary (fun s => s)
      (getLatestNewsSummary (fun s => s)
        (getLatestNewsSummary (fun s => s) initialCacheState 5 5
          (Except.ok "## A\n")).state
        (5 + cacheTTL) (5 + cacheTTL) (Except.error "down")).state
      (5 + cacheTTL + 9) (5 + cacheTTL + 9) (Except.ok "ignored")).md = "## A\n" ∧
    (getLatestNewsSummary (fun s => s)
      (getLatestNewsSummary (fun s => s)
        (getLatestNewsSummary (fun s => s) initialCacheState 5 5
          (Except.ok "## A\n")).state
        (5 + cacheTTL) (5 + cacheTTL) (Except.error "down")).state
      (5 + cacheTTL + 9) (5 + cacheTTL + 9) (Except.ok "ignored")).html
      = (fun s => s) "## A\n" ∧
    (getLatestNewsSummary (fun s => s)
      (getLatestNewsSummary (fun s => s)
        (getLatestNewsSummary (fun s => s) initialCacheState 5 5
          (Except.ok "## A\n")).state
        (5 + cacheTTL) (5 + cacheTTL) (Except.error "down")).state
      (5 + cacheTTL + 9) (5 + cacheTTL + 9) (Except.ok "ignored")).err = some "down" ∧
    (getLatestNewsSummary (fun s => s)
      (getLatestNewsSummary (fun s => s)
        (getLatestNewsSummary (fun s => s) initialCacheState 5 5
          (Except.ok "## A\n")).state
        (5 + cacheTTL) (5 + cacheTTL) (Except.error "down")).state
      (5 + cacheTTL + 9) (5 + cacheTTL + 9) (Except.ok "ignored")).fetched = false := by
  refine ⟨⟨by decide, by decide, by decide, by decide⟩, ?_⟩
  exact stale_serves_through_error (fun s => s) initialCacheState "## A\n" "down"
    5 9 (Except.ok "ignored") (by decide) (by decide) (by decide) (by decide)

/-! ## Claim C5 -/

/-- Claim C5: TTL respected.  After a refresh triggered at t0 succeeds
with non-empty content `c`, a call at t0 + TTL − ε (0 < ε ≤ TTL)
performs no fetch and a call at t0 + TTL + ε performs one; and the
staleness test is `(now − fetchedAt ≥ TTL) OR (content empty, i.e.
never succeeded)`. -/
theorem ttl_respected (render : String → String) (s : CacheState)
    (c : String) (t0 ε : Nat) (o2 o3 : Except String String)
    (hc : c ≠ "") (hstale : needsUpdate s t0 = true)
    (hε : 0 < ε) (hεle : ε ≤ cacheTTL) :
    (getLatestNewsSummary render
      (getLatestNewsSummary render s t0 t0 (Except.ok c)).state
      (t0 + cacheTTL - ε) (t0 + cacheTTL - ε) o2).fetched = false ∧
    (getLatestNewsSummary render
      (getLatestNewsSummary render s t0 t0 (Except.ok c)).state
      (t0 + cacheTTL + ε) (t0 + cacheTTL + ε) o3).fetched = true ∧
    (∀ s' : CacheState, ∀ now' : Nat, needsUpdate s' now' =
      (decide (cacheTTL ≤ now' - s'.lastSummaryUpdateTime) ||
       decide (s'.cachedSummaryMD = ""))) := by
  have h1 : (getLatestNewsSummary render s t0 t0 (Except.ok c)).state =
      { cachedSummaryMD := c, cachedSummaryHTML := render c,
        lastSummaryUpdateTime := t0, summaryFetchError := none } := by
    rw [getLatest_ok render s t0 t0 c hstale]
  rw [h1]
  have hnu2 : needsUpdate
      { cachedSummaryMD := c, cachedSummaryHTML := render c,
        lastSummaryUpdateTime := t0, summaryFetchError := none }
      (t0 + cacheTTL - ε) = false := by
    apply needsUpdate_false
    · simpa using hc
    · simp only []
      omega
  have hnu3 : needsUpdate
      { cachedSummaryMD := c, cachedSummaryHTML := render c,
        lastSummaryUpdateTime := t0, summaryFetchError := none }
      (t0 + cacheTTL + ε) = true := by
    apply needsUpdate_of_ttl
    simp only []
    omega
  refine ⟨?_, ?_, fun s' now' => rfl⟩
  · rw [getLatest_fresh render _ _ _ o2 hnu2]
  · cases o3 with
    | ok c3 => rw [getLatest_ok render _ _ _ c3 hnu3]
    | error e3 => rw [getLatest_err render _ _ _ e3 hnu3]

/-- Witness for C5: t0 = 4, ε = 11, content "## A\n". -/
theorem ttl_respected_witness :
    (("## A\n" : String).length = 5 ∧ needsUpdate initialCacheState 4 = true ∧
     (0 : Nat) < 11 ∧ 11 ≤ cacheTTL) ∧
    (getLatestNewsSummary (fun s => s)
      (getLatestNewsSummary (fun s => s) initialCacheState 4 4
        (Except.ok "## A\n")).state
      (4 + cacheTTL - 11) (4 + cacheTTL - 11) (Except.ok "x")).fetched = false ∧
    (getLatestNewsSummary (fun s => s)
      (getLatestNewsSummary (fun s => s) initialCacheState 4 4
        (Except.ok "## A\n")).state
      (4 + cacheTTL + 11) (4 + cacheTTL + 11) (Except.error "y")).fetched = true ∧
    (∀ s' : CacheState, ∀ now' : Nat, needsUpdate s' now' =
      (decide (cacheTTL ≤ now' - s'.lastSummaryUpdateTime) ||
       decide (s'.cachedSummaryMD = ""))) := by
  refine ⟨⟨by decide, by decide, by decide, by decide⟩, ?_⟩
  exact ttl_respected (fun s => s) initialCacheState "## A\n" 4 11
    (Except.ok "x") (Except.error "y") (by decide) (by decide) (by decide) (by decide)

/-! ## Claim C6 -/

/-- Claim C6: snapshot invariants preserved by every refresh.  The initial
state is consistent; every write-lock critical section preserves
consistency (rendered and raw content both reflect the same successful
fetch, or are both empty) provided successful fetch outcomes are
non-empty; a successful attempt clears the stored error; a failing
attempt stores its error and is the attempt that sets the current
timestamp; and a critical section that performs no fetch leaves the
state untouched, so the error can be non-none only if the attempt that
set the current timestamp did not succeed. -/
theorem snapshot_invariants (render : String → String) :
    Consistent render initialCacheState ∧
    (∀ (s : CacheState) (tc ts : Nat) (o : Except String String),
      Consistent render s → (∀ c, o = Except.ok c → c ≠ "") →
      Consistent render (lockedRefresh render s tc ts o).1) ∧
    (∀ (s : CacheState) (tc ts : Nat) (c : String),
      (lockedRefresh render s tc ts (Except.ok c)).2 = true →
      (lockedRefresh render s tc ts (Except.ok c)).1.summaryFetchError = none) ∧
    (∀ (s : CacheState) (tc ts : Nat) (e : String),
      (lockedRefresh render s tc ts (Except.error e)).2 = true →
      (lockedRefresh render s tc ts (Except.error e)).1.summaryFetchError = some e ∧
      (lockedRefresh render s tc ts
        (Except.error e)).1.lastSummaryUpdateTime = ts) ∧
    (∀ (s : CacheState) (tc ts : Nat) (o : Except String String),
      (lockedRefresh render s tc ts o).2 = false →
      (lockedRefresh render s tc ts o).1 = s) := by
  refine ⟨Or.inl ⟨rfl, rfl⟩, ?_, ?_, ?_, ?_⟩
  · intro s tc ts o hcons hok
    by_cases h : needsUpdate s tc = true
    · cases o with
      | error e =>
        simp only [lockedRefresh, h, if_true]
        rcases hcons with h1 | h2
        · exact Or.inl ⟨h1.1, h1.2⟩
        · exact Or.inr ⟨h2.1, h2.2⟩
      | ok c =>
        simp only [lockedRefresh, h, if_true]
        exact Or.inr ⟨hok c rfl, rfl⟩
    · rw [lockedRefresh_skip render s tc ts o (by simpa using h)]
      exact hcons
  · intro s tc ts c hf
    by_cases h : needsUpdate s tc = true
    · simp [lockedRefresh, h]
    · rw [lockedRefresh_skip render s tc ts _ (by simpa using h)] at hf
      exact absurd hf (by simp)
  · intro s tc ts e hf
    by_cases h : needsUpdate s tc = true
    · simp [lockedRefresh, h]
    · rw [lockedRefresh_skip render s tc ts _ (by simpa using h)] at hf
      exact absurd hf (by simp)
  · intro s tc ts o hf
    by_cases h : needsUpdate s tc = true
    · cases o with
      | error e => rw [lockedRefresh] at hf; simp [h] at hf
      | ok c => rw [lockedRefresh] at hf; simp [h] at hf
    · rw [lockedRefresh_skip render s tc ts o (by simpa using h)]

/-- Witness for C6: consistency of the initial state, of a state after a
successful refresh with non-empty content, and of a skipped critical
section; plus the error discipline at a concrete failing refresh. -/
theorem snapshot_invariants_witness :
    Consistent (fun s => s) initialCacheState ∧
    Consistent (fun s => s)
      (lockedRefresh (fun s => s) initialCacheState 0 3 (Except.ok "## A\n")).1 ∧
    (lockedRefresh (fun s => s) primedState cacheTTL 7 (Except.error "down")).2 = true ∧
    (lockedRefresh (fun s => s) primedState cacheTTL 7
      (Except.error "down")).1.summaryFetchError = some "down" ∧
    (lockedRefresh (fun s => s) primedState cacheTTL 7
      (Except.error "down")).1.lastSummaryUpdateTime = 7 := by
  refine ⟨(snapshot_invariants (fun s => s)).1, ?_, by decide, ?_, ?_⟩
  · exact (snapshot_invariants (fun s => s)).2.1 initialCacheState 0 3
      (Except.ok "## A\n") (Or.inl ⟨rfl, rfl⟩)
      (fun c hc => by cases hc; decide)
  · exact ((snapshot_invariants (fun s => s)).2.2.2.1 primedState cacheTTL 7 "down"
      (by decide)).1
  · exact ((snapshot_invariants (fun s => s)).2.2.2.1 primedState cacheTTL 7 "down"
      (by decide)).2

/-! ## Claim C7 -/

/-- Claim C7: no content before first success.  Before any refresh attempt
the cache returns empty content and no error; once the cache is empty
(no success yet), any call whose fetch fails returns empty content
together with that non-none error (the call itself performs the
attempt, since an empty cache always re-triggers); and along any
history in which every fetch outcome is a failure, the cached Markdown
and HTML stay empty. -/
theorem no_content_before_first_success (render : String → String) :
    readOut initialCacheState = ("", "", none) ∧
    (∀ (s : CacheState) (now ns : Nat) (e : String),
      s.cachedSummaryMD = "" → s.cachedSummaryHTML = "" →
      (getLatestNewsSummary render s now ns (Except.error e)).md = "" ∧
      (getLatestNewsSummary render s now ns (Except.error e)).html = "" ∧
      (getLatestNewsSummary render s now ns (Except.error e)).err = some e ∧
      (getLatestNewsSummary render s now ns (Except.error e)).fetched = true) ∧
    (∀ tr : List (Nat × Nat × Except String String),
      (∀ x ∈ tr, ∃ e, x.2.2 = Except.error e) →
      (runCalls render initialCacheState tr).cachedSummaryMD = "" ∧
      (runCalls render initialCacheState tr).cachedSummaryHTML = "") := by
  refine ⟨rfl, ?_, ?_⟩
  · intro s now ns e h1 h2
    rw [getLatest_err render s now ns e (needsUpdate_of_empty s now h1)]
    exact ⟨h1, h2, rfl, rfl⟩
  · intro tr hall
    exact runCalls_allFail render tr initialCacheState rfl rfl hall

/-- Witness for C7: a two-call all-failing history from the initial state
leaves the cache empty, and a failing call on the empty cache returns
the empty content with the error. -/
theorem no_content_before_first_success_witness :
    initialCacheState.cachedSummaryMD = "" ∧
    initialCacheState.cachedSummaryHTML = "" ∧
    readOut initialCacheState = ("", "", none) ∧
    (getLatestNewsSummary (fun s => s) initialCacheState 0 0
      (Except.error "a")).md = "" ∧
    (getLatestNewsSummary (fun s => s) initialCacheState 0 0
      (Except.error "a")).err = some "a" ∧
    (runCalls (fun s => s) initialCacheState
      [(0, 0, Except.error "a"), (7, 7, Except.error "b")]).cachedSummaryMD = "" := by
  have hall : ∀ x ∈ ([(0, 0, Except.error "a"), (7, 7, Except.error "b")] :
      List (Nat × Nat × Except String String)), ∃ e, x.2.2 = Except.error e := by
    intro x hx
    fin_cases hx
    · exact ⟨"a", rfl⟩
    · exact ⟨"b", rfl⟩
  exact ⟨rfl, rfl, (no_content_before_first_success (fun s => s)).1,
    ((no_content_before_first_success (fun s => s)).2.1 initialCacheState 0 0 "a"
      rfl rfl).1,
    ((no_content_before_first_success (fun s => s)).2.1 initialCacheState 0 0 "a"
      rfl rfl).2.2.1,
    ((no_content_before_first_success (fun s => s)).2.2
      [(0, 0, Except.error "a"), (7, 7, Except.error "b")] hall).1⟩

/-! ## Helper lemmas about the feed aggregator -/

theorem sectionItems_eq_take :
    ∀ (items : List FeedItem) (k : Nat),
    sectionItems items k = (items.take (maxItemsPerFeed - k)).map itemLine := by
  intro items
  induction items with
  | nil => intro k; simp [sectionItems]
  | cons item rest ih =>
    intro k
    by_cases h : maxItemsPerFeed ≤ k
    · have h0 : maxItemsPerFeed - k = 0 := by omega
      simp [sectionItems, h, h0]
    · have h3 : maxItemsPerFeed - k = (maxItemsPerFeed - (k + 1)) + 1 := by omega
      simp [sectionItems, h, h3, ih]

theorem errorBlock_length_pos (errs : List String) (h : 0 < errs.length) :
    0 < (errorBlock errs).length := by
  rw [errorBlock, if_pos h, String.length_append]
  have hh : 0 < ("\n---\n**Errors during fetch:**\n" : String).length := by decide
  omega

theorem fetchAndSummarizeNews_eq_ok (outcomes : List FeedOutcome)
    (order : List Nat) :
    fetchAndSummarizeNews outcomes order =
      Except.ok (combineResults outcomes (gatherResults outcomes order).1 ++
        errorBlock (gatherResults outcomes order).2) := by
  simp only [fetchAndSummarizeNews]
  rw [if_neg]
  rintro ⟨hlen, herrs⟩
  have hpos := errorBlock_length_pos _ herrs
  rw [String.length_append] at hlen
  omega

theorem gather_foldl (outcomes : List FeedOutcome) :
    ∀ (order : List Nat) (acc : List (String × String) × List String),
    order.foldl (gatherStep outcomes) acc =
      ((order.filterMap (okEntry outcomes)).reverse ++ acc.1,
       acc.2 ++ order.filterMap (errNote outcomes)) := by
  intro order
  induction order with
  | nil => intro acc; simp
  | cons i order ih =>
    intro acc
    rw [List.foldl_cons, ih]
    cases h : outcomes[i]? with
    | none =>
      simp [gatherStep, okEntry, errNote, h, List.filterMap_cons]
    | some so =>
      rcases so with ⟨src, o⟩
      cases o with
      | error e =>
        simp [gatherStep, okEntry, errNote, h, List.filterMap_cons]
      | ok feed =>
        simp [gatherStep, okEntry, errNote, h, List.filterMap_cons]

theorem lookup_eq_some_of_mem :
    ∀ (L : List (String × String)) (k v : String),
    (k, v) ∈ L → (∀ p ∈ L, p.1 = k → p.2 = v) → L.lookup k = some v := by
  intro L
  induction L with
  | nil => intro k v hmem _; simp at hmem
  | cons p L ih =>
    intro k v hmem huniq
    rcases p with ⟨k', v'⟩
    rw [List.lookup_cons]
    by_cases hk : k = k'
    · have : v' = v := huniq (k', v') (by simp) hk.symm
      simp [hk, this]
    · have hbeq : (k == k') = false := by
        simp [hk]
      simp only [hbeq]
      rcases List.mem_cons.mp hmem with heq | hmem'
      · exact absurd (congrArg Prod.fst heq) hk
      · exact ih k v hmem' (fun q hq => huniq q (List.mem_cons_of_mem _ hq))

theorem lookup_eq_none_of_forall :
    ∀ (L : List (String × String)) (k : String),
    (∀ p ∈ L, p.1 ≠ k) → L.lookup k = none := by
  intro L
  induction L with
  | nil => intro k _; rfl
  | cons p L ih =>
    intro k h
    rcases p with ⟨k', v'⟩
    rw [List.lookup_cons]
    have hk : k' ≠ k := h (k', v') (by simp)
    have hbeq : (k == k') = false := by
      simp
      intro he
      exact absurd he.symm hk
    simp only [hbeq]
    exact ih k (fun q hq => h q (List.mem_cons_of_mem _ hq))

theorem range_filterMap_errNote :
    ∀ outcomes : List FeedOutcome,
    (List.range outcomes.length).filterMap (errNote outcomes) =
      failureNotes outcomes := by
  intro outcomes
  induction outcomes with
  | nil => rfl
  | cons so rest ih =>
    rw [List.length_cons, List.range_succ_eq_map, List.filterMap_cons,
      List.filterMap_map]
    have hcomp : (errNote (so :: rest)) ∘ Nat.succ = errNote rest := by
      funext i
      simp [errNote, Function.comp]
    rw [hcomp, ih]
    rcases so with ⟨src, o⟩
    cases o with
    | error e => simp [errNote, failureNotes, noteOf, List.filterMap_cons]
    | ok feed => simp [errNote, failureNotes, noteOf, List.filterMap_cons]

theorem filterMap_ext_mem {α β : Type} {l : List α} {f g : α → Option β}
    (h : ∀ a ∈ l, f a = g a) : l.filterMap f = l.filterMap g := by
  induction l with
  | nil => rfl
  | cons a l ih =>
    rw [List.filterMap_cons, List.filterMap_cons, h a (by simp),
      ih (fun b hb => h b (List.mem_cons_of_mem _ hb))]

theorem okEntry_eq_some_iff (outcomes : List FeedOutcome) (j : Nat)
    (p : String × String) :
    okEntry outcomes j = some p ↔
      ∃ src feed, outcomes[j]? = some (src, Except.ok feed) ∧
        p = (src.name, buildFeedSection feed) := by
  unfold okEntry
  rcases h : outcomes[j]? with _ | ⟨src, o⟩
  · simp
  · cases o with
    | error e => simp
    | ok feed =>
      constructor
      · intro hp
        exact ⟨src, feed, rfl, (Option.some.inj hp).symm⟩
      · rintro ⟨src', feed', heq, hp⟩
        obtain ⟨h1, h2⟩ := Prod.mk.injEq .. ▸ Option.some.inj heq
        cases h1
        cases Except.ok.inj h2
        rw [hp]

theorem getElem?_isSome_lt {α : Type} (l : List α) (i : Nat) (a : α)
    (h : l[i]? = some a) : i < l.length := by
  by_contra hge
  rw [List.getElem?_eq_none (by omega)] at h
  exact Option.noConfusion h

theorem results_lookup (outcomes : List FeedOutcome) (order : List Nat)
    (hnodup : (outcomes.map (fun so => so.1.name)).Nodup)
    (hperm : order.Perm (List.range outcomes.length))
    (i : Nat) (so : FeedOutcome) (hi : outcomes[i]? = some so) :
    ((gatherResults outcomes order).1).lookup so.1.name = sectionOf so := by
  have hresults : (gatherResults outcomes order).1 =
      (order.filterMap (okEntry outcomes)).reverse := by
    rw [gatherResults, gather_foldl]
    simp
  have hilen : i < outcomes.length := getElem?_isSome_lt outcomes i so hi
  have hinj : ∀ (j : Nat) (so' : FeedOutcome), outcomes[j]? = some so' →
      so'.1.name = so.1.name → j = i := by
    intro j so' hj hname
    have hjlen : j < outcomes.length := getElem?_isSome_lt outcomes j so' hj
    have hmap : (outcomes.map (fun x => x.1.name))[j]? =
        (outcomes.map (fun x => x.1.name))[i]? := by
      rw [List.getElem?_map, List.getElem?_map, hi, hj]
      simp [hname]
    exact @List.getElem?_inj _ j i (outcomes.map (fun x => x.1.name))
      (by simpa using hjlen) hnodup hmap
  have hmemchar : ∀ p : String × String,
      p ∈ (gatherResults outcomes order).1 ↔
        ∃ j ∈ order, okEntry outcomes j = some p := by
    intro p
    rw [hresults, List.mem_reverse, List.mem_filterMap]
  have hin_order : ∀ j, j < outcomes.length → j ∈ order :=
    fun j hj => hperm.mem_iff.mpr (List.mem_range.mpr hj)
  rcases hso : so.2 with e | feed
  · -- the feed at index i failed: its name is bound to no entry
    rw [sectionOf, hso]
    apply lookup_eq_none_of_forall
    intro p hp hpk
    rcases (hmemchar p).mp hp with ⟨j, _, hokj⟩
    rcases (okEntry_eq_some_iff outcomes j p).mp hokj with ⟨src', feed', hj, hpval⟩
    have hj_eq : j = i := hinj j (src', Except.ok feed') hj (by rw [hpval] at hpk; exact hpk)
    subst hj_eq
    rw [hi] at hj
    have hso_eq := Option.some.inj hj
    rw [hso_eq] at hso
    simp at hso
  · -- the feed at index i succeeded: its name is bound to its section
    rw [sectionOf, hso]
    apply lookup_eq_some_of_mem
    · rw [hmemchar]
      refine ⟨i, hin_order i hilen, ?_⟩
      rw [okEntry_eq_some_iff]
      exact ⟨so.1, feed, by rw [hi, ← hso], rfl⟩
    · intro p hp hpk
      rcases (hmemchar p).mp hp with ⟨j, _, hokj⟩
      rcases (okEntry_eq_some_iff outcomes j p).mp hokj with ⟨src', feed', hj, hpval⟩
      have hj_eq : j = i := hinj j (src', Except.ok feed') hj (by rw [hpval] at hpk; exact hpk)
      subst hj_eq
      rw [hi] at hj
      have hso' := Option.some.inj hj
      rw [hso'] at hso
      have hfeed : feed' = feed := Except.ok.inj hso
      rw [hpval, hfeed]

/-! ## Claim C2 -/

set_option maxRecDepth 8192 in
/-- Claim C2 is contradicted by the code: `fetchAndSummarizeNews` can
never return an operation-level failure, because the per-source failure
notes are appended to `finalSummary` before the `finalSummary.Len() == 0`
check, so whenever fetch errors exist the builder is already non-empty
and the `return "", fmt.Errorf(...)` branch (guarded by its own
"If all feeds failed" comment) is unreachable.  First conjunct: every
input yields an `ok` result.  Remaining conjuncts: at the concrete
failing input where all five configured sources fail, the function
returns the error-notes block as content with a nil error, instead of
the empty content and non-nil error the claim requires. -/
theorem fetcher_error_branch_unreachable :
    (∀ (outcomes : List FeedOutcome) (order : List Nat),
      ∃ s : String, fetchAndSummarizeNews outcomes order = Except.ok s) ∧
    fetchAndSummarizeNews
      (rssFeeds.map (fun src => (src, Except.error "timeout"))) [0, 1, 2, 3, 4] =
      Except.ok ("\n---\n**Errors during fetch:**\n*   Failed to fetch BBC News: timeout\n*   Failed to fetch TechCrunch: timeout\n*   Failed to fetch The Guardian: timeout\n*   Failed to fetch NPR News: timeout\n*   Failed to fetch Al Jazeera: timeout\n") ∧
    0 < ("\n---\n**Errors during fetch:**\n*   Failed to fetch BBC News: timeout\n*   Failed to fetch TechCrunch: timeout\n*   Failed to fetch The Guardian: timeout\n*   Failed to fetch NPR News: timeout\n*   Failed to fetch Al Jazeera: timeout\n" : String).length := by
  exact ⟨fun outcomes order => ⟨_, fetchAndSummarizeNews_eq_ok outcomes order⟩,
    by rfl, by decide⟩

/-! ## Claim C9 -/

/-- Claim C9: deterministic source order.  For every assignment of
per-feed outcomes with pairwise distinct feed names and every completion
order of the concurrent per-feed goroutines (a permutation of the feed
indices), the combined summary is the concatenation of the successfully
fetched feeds' sections in the order the feeds appear in the source
list, followed by the error block collecting exactly the failure notes
(in completion order). -/
theorem deterministic_source_order (outcomes : List FeedOutcome)
    (order : List Nat)
    (hnodup : (outcomes.map (fun so => so.1.name)).Nodup)
    (hperm : order.Perm (List.range outcomes.length)) :
    ∃ errs : List String, errs.Perm (failureNotes outcomes) ∧
      fetchAndSummarizeNews outcomes order =
        Except.ok (sectionsInOrder outcomes ++ errorBlock errs) := by
  refine ⟨(gatherResults outcomes order).2, ?_, ?_⟩
  · have h2 : (gatherResults outcomes order).2 =
        order.filterMap (errNote outcomes) := by
      rw [gatherResults, gather_foldl]
      simp
    rw [h2, ← range_filterMap_errNote outcomes]
    exact List.Perm.filterMap _ hperm
  · rw [fetchAndSummarizeNews_eq_ok]
    congr 2
    rw [combineResults, sectionsInOrder]
    congr 1
    apply filterMap_ext_mem
    intro so hso
    rcases List.mem_iff_getElem.mp hso with ⟨i, hlt, higet⟩
    have hi : outcomes[i]? = some so := by
      rw [List.getElem?_eq_getElem hlt, higet]
    exact results_lookup outcomes order hnodup hperm i so hi

/-- Witness for C9: two sources (one success, one failure) completing in
reverse order still list the successful section first, then the failure
note. -/
theorem deterministic_source_order_witness :
    ((exOutcomes.map (fun so => so.1.name)).Nodup ∧
     ([1, 0] : List Nat).Perm (List.range exOutcomes.length)) ∧
    (∃ errs : List String, errs.Perm (failureNotes exOutcomes) ∧
      fetchAndSummarizeNews exOutcomes [1, 0] =
        Except.ok (sectionsInOrder exOutcomes ++ errorBlock errs)) := by
  refine ⟨⟨by decide, by decide⟩, ?_⟩
  exact deterministic_source_order exOutcomes [1, 0] (by decide) (by decide)

/-! ## Claim C10 -/

/-- Claim C10: per-feed item limit.  The item loop of a feed section
produces exactly the first `maxItemsPerFeed` (3) items of the feed in
feed order, hence at most `maxItemsPerFeed` item links, and the section
built for the feed is its title heading followed by those lines,
however many items the feed contains. -/
theorem per_feed_item_limit (feed : Feed) :
    sectionItems feed.items 0 = (feed.items.take maxItemsPerFeed).map itemLine ∧
    (sectionItems feed.items 0).length ≤ maxItemsPerFeed ∧
    buildFeedSection feed =
      "## " ++ feed.title ++ "\n\n" ++
        String.join ((feed.items.take maxItemsPerFeed).map itemLine) ++ "\n" := by
  have h := sectionItems_eq_take feed.items 0
  rw [Nat.sub_zero] at h
  refine ⟨h, ?_, ?_⟩
  · rw [h, List.length_map, List.length_take]
    exact min_le_left _ _
  · rw [buildFeedSection, h]

end TimeDemo
